import Mathlib

/-!
# Comm native bridge: `jsiInstaller.cpp` and `SQLiteQueryExecutor.h`

A shallow embedding of `CommHybrid::initHybrid` (the JNI entry point that installs the
`CommCoreModule` host object into a JSI runtime and records the SQLite file path) and of
the `SQLiteQueryExecutor` interface it configures.

State that the C++ code keeps in statics, in the JSI runtime and on disk is made explicit
in `World`; `initHybrid` is a function from the call's arguments and a `World` to a
`Result` (how the call ended, the world it left behind, and the statements it executed).
-/

namespace comm

/-! ## Values that cross the JNI / JSI boundary -/

/-- A `react::CallInvoker`: the handle that schedules closures on the runtime thread.
Only its identity matters here. -/
structure CallInvoker where
  id : Nat
  deriving DecidableEq, Repr

/-- The Java-side `CallInvokerHolder`; `cthis()->getCallInvoker()` reads the invoker. -/
structure CallInvokerHolder where
  getCallInvoker : CallInvoker
  deriving DecidableEq, Repr

/-- Modelled from the spec: `CommCoreModule.h` is not among the sources. The native module
is built from the call invoker (`std::make_shared<comm::CommCoreModule>(jsCallInvoker)`)
and holds it; its constructor is taken to touch neither a runtime nor the store. -/
structure CommCoreModule where
  jsInvoker : CallInvoker
  deriving DecidableEq, Repr

/-- A non-null Java object reference as seen through `jni::JObject`. The only method
`initHybrid` calls on it is `toString()`, so the object is represented by the text that
call returns. -/
structure JObject where
  str : String
  deriving DecidableEq, Repr

/-- The `jni::JObject::toString()` call: the string form of a Java object. -/
def JObject.toString (o : JObject) : String := o.str

/-- Modelled from the spec: `jniHelpers.h` is not among the sources. `comm::HashMap` is the
configuration mapping (a `java.util.HashMap`), kept as its list of entries. -/
structure HashMap where
  entries : List (String × JObject)
  deriving DecidableEq, Repr

/-- The `additionalParameters.get(key)` call: the object stored under `key`, or `none`
for the null reference that the lookup yields when there is no entry. -/
def HashMap.get (m : HashMap) (key : String) : Option JObject :=
  match m.entries.find? (fun e => e.1 == key) with
  | some e => some e.2
  | none => none

/-- A `jsi::Value` held in a property. Numbers (doubles) and plain objects play no part
in the installer and are left out. -/
inductive Value where
  | undefined
  | null
  | bool (b : Bool)
  | string (s : String)
  | hostObject (m : CommCoreModule)
  deriving DecidableEq, Repr

/-- A `jsi::Runtime`: its global object, as the value of every property name
(`undefined` where the property was never set). -/
structure Runtime where
  global : String → Value

/-- The `rt->global().setProperty(*rt, name, value)` call. -/
def Runtime.setProperty (r : Runtime) (name : String) (v : Value) : Runtime :=
  { global := fun n => if n = name then v else r.global n }

/-! ## The persisted store -/

/-- The entity `Draft` of `entities/Draft.h`: a unique key and a text payload. -/
structure Draft where
  key : String
  text : String
  deriving DecidableEq, Repr

/-- Modelled from the spec: the persisted layout, "a single file ... containing the entity
tables plus an internal schema-version record". -/
structure Store where
  version : Nat
  drafts : List Draft
  deriving DecidableEq, Repr

/-! ## Explicit program state -/

/-- Everything `initHybrid` and the executor can read or write.
* `runtimes a` is the live `jsi::Runtime` at address `a`, if there is one;
* `sqliteFilePath` is the static `SQLiteQueryExecutor::sqliteFilePath`;
* `files p` is the store that can be opened at path `p`, `none` when nothing can be
  opened there (unreachable or corrupted). -/
structure World where
  runtimes : Int → Option Runtime
  sqliteFilePath : String
  files : String → Option Store

/-- The world in which the runtime at address `rt` has become `r`: the effect of a
mutating call made through the pointer `rt`. -/
def World.storeRuntime (w : World) (rt : Int) (r : Runtime) : World :=
  { w with runtimes := fun a => if a = rt then some r else w.runtimes a }

/-- How a call of `initHybrid` ends. -/
inductive Outcome where
  /-- The function ran to its closing brace. -/
  | returned
  /-- The call `sqliteFilePathObj->toString()` was made on a null reference. -/
  | nullReference
  /-- A non-null `jsContext` that is not the address of a live runtime was dereferenced. -/
  | invalidRuntime
  deriving DecidableEq, Repr

/-- The statements of `initHybrid` that have an effect, as they are executed. -/
inductive Step where
  /-- Lines 23-24: `std::make_shared<comm::CommCoreModule>(jsCallInvoker)`. -/
  | moduleConstructed (m : CommCoreModule)
  /-- Lines 27-30: `rt->global().setProperty(...)` on the runtime at address `rt`. -/
  | globalInstalled (rt : Int) (name : String)
  /-- Line 35: the assignment to `SQLiteQueryExecutor::sqliteFilePath`. -/
  | pathAssigned (p : String)
  deriving DecidableEq, Repr

/-- What a call of `initHybrid` leaves behind: how it ended, the final world, and the
executed steps, each paired with the world right after it. -/
structure Result where
  outcome : Outcome
  world : World
  trace : List (Step × World)

/-! ## `CommHybrid::initHybrid` -/

/-- Lines 33-35 of `jsiInstaller.cpp`: look the path object up and assign its string form
to the static. A null lookup result makes `->toString()` fail before the assignment. -/
def assignSqliteFilePath (additionalParameters : HashMap) (w : World)
    (t : List (Step × World)) : Result :=
  match additionalParameters.get "sqliteFilePath" with
  | none => { outcome := .nullReference, world := w, trace := t }
  | some sqliteFilePathObj =>
    let w2 : World := { w with sqliteFilePath := sqliteFilePathObj.toString }
    { outcome := .returned, world := w2,
      trace := t ++ [(.pathAssigned sqliteFilePathObj.toString, w2)] }

/-- The body of `CommHybrid::initHybrid` (lines 21-35). `jsContext` is the `jlong` that is
cast to `jsi::Runtime *`; pointers are taken to be as wide as `jlong`, so the cast keeps
the value and `0` is `nullptr`. The holder reference `jsCallInvokerHolder` is taken to be
non-null. -/
def initHybrid (jsContext : Int) (jsCallInvokerHolder : CallInvokerHolder)
    (additionalParameters : HashMap) (w : World) : Result :=
  let rt := jsContext
  let jsCallInvoker := jsCallInvokerHolder.getCallInvoker
  let nativeModule : CommCoreModule := { jsInvoker := jsCallInvoker }
  let t0 : List (Step × World) := [(.moduleConstructed nativeModule, w)]
  if rt ≠ 0 then
    match w.runtimes rt with
    | none => { outcome := .invalidRuntime, world := w, trace := t0 }
    | some r =>
      let w1 : World := w.storeRuntime rt
        (r.setProperty "CommCoreModule" (.hostObject nativeModule))
      assignSqliteFilePath additionalParameters w1
        (t0 ++ [(.globalInstalled rt "CommCoreModule", w1)])
  else
    assignSqliteFilePath additionalParameters w t0

/-! ## `SQLiteQueryExecutor`

`SQLiteQueryExecutor.h` declares the class; the bodies of its methods are not among the
sources, so the operations below follow the specification text. -/

/-- Modelled from the spec: the error taxonomy of the storage layer (`MigrationFailed`,
`StorageUnavailable`); the implementation file of `SQLiteQueryExecutor` is missing. -/
inductive StoreError where
  | migrationFailed
  | storageUnavailable
  deriving DecidableEq, Repr

/-- Modelled from the spec: one migration step, the body of which is missing. It rewrites
the entity tables, or fails (`none`) and is rolled back. -/
abbrev Migration := List Draft → Option (List Draft)

/-- Modelled from the spec: "apply each pending migration step in ascending order, each
step wrapped in an atomic unit". Returns the store reached and whether every step
succeeded; a failed step leaves the store at the version before that step. The body of
`SQLiteQueryExecutor::migrate` is missing. -/
def applyMigrations : List Migration → Store → Store × Bool
  | [], s => (s, true)
  | m :: ms, s =>
    match m s.drafts with
    | none => (s, false)
    | some ds => applyMigrations ms { version := s.version + 1, drafts := ds }

/-- Modelled from the spec: "compare the stored version to the target version compiled
into the engine" and run the pending steps. The target version is the number of steps. -/
def Store.migrate (steps : List Migration) (s : Store) : Store × Bool :=
  applyMigrations (steps.drop s.version) s

/-- Modelled from the spec: `get(key)` "returns the current payload for `key`, or an
empty/absent result if no record exists". The declared return type is `std::string`, so
the absent result is the empty string. The body of `getDraft` is missing. -/
def Store.getDraft (s : Store) (key : String) : String :=
  match s.drafts.find? (fun d => d.key == key) with
  | some d => d.text
  | none => ""

/-- Modelled from the spec: `upsert(key, payload)` "creates the record if absent, else
overwrites payload". The body of `updateDraft` is missing. -/
def Store.updateDraft (s : Store) (key text : String) : Store :=
  if s.drafts.any (fun d => d.key == key) then
    { version := s.version,
      drafts := s.drafts.map (fun d => if d.key = key then { d with text := text } else d) }
  else
    { version := s.version, drafts := s.drafts ++ [{ key := key, text := text }] }

/-- The data-model invariant "at most one record per key". -/
def Store.UniqueKeys (s : Store) : Prop := (s.drafts.map Draft.key).Nodup

instance (s : Store) : Decidable s.UniqueKeys := by
  unfold Store.UniqueKeys; infer_instance

/-- The class `SQLiteQueryExecutor`: the header declares no per-instance data member, only
the static `sqliteFilePath`, which lives in `World`. -/
structure SQLiteQueryExecutor where
  deriving DecidableEq, Repr

/-- Modelled from the spec: the static `getStorage()` (body missing) opens the store at
the static path; `StorageUnavailable` when nothing can be opened there. -/
def SQLiteQueryExecutor.getStorage (w : World) : Except StoreError Store :=
  match w.files w.sqliteFilePath with
  | none => .error .storageUnavailable
  | some s => .ok s

/-- Write `s` back to the file at the static path. -/
def World.putStorage (w : World) (s : Store) : World :=
  { w with files := fun p => if p = w.sqliteFilePath then some s else w.files p }

/-- Modelled from the spec: `SQLiteQueryExecutor::migrate()` (body missing) brings the
store at the static path to the target version; a failed step gives `MigrationFailed`. -/
def SQLiteQueryExecutor.migrate (steps : List Migration) (w : World) :
    Except StoreError Unit × World :=
  match SQLiteQueryExecutor.getStorage w with
  | .error e => (.error e, w)
  | .ok s =>
    match s.migrate steps with
    | (s1, true) => (.ok (), w.putStorage s1)
    | (s1, false) => (.error .migrationFailed, w.putStorage s1)

/-- Modelled from the spec: the constructor `SQLiteQueryExecutor()` (body missing) takes no
argument and runs the migration before any entity operation is served. -/
def SQLiteQueryExecutor.create (steps : List Migration) (w : World) :
    Except StoreError SQLiteQueryExecutor × World :=
  match SQLiteQueryExecutor.migrate steps w with
  | (.error e, w1) => (.error e, w1)
  | (.ok _, w1) => (.ok {}, w1)

/-- Modelled from the spec: the state `Ready` of the backing store ("migrations applied;
entity operations permitted"): no migration step is pending, the stored version has
reached the target version, which is the number of steps compiled into the engine. -/
def Store.isReady (steps : List Migration) (s : Store) : Bool :=
  decide (steps.length ≤ s.version)

/-- Modelled from the spec: the gate in front of every entity operation. The store at the
static path is opened, and it is served only in state `Ready`; a store whose migration
failed or never ran stays in `Initializing`, "refusing all entity operations", which is
reported as `MigrationFailed` ("blocks all further store use"). -/
def SQLiteQueryExecutor.readyStorage (steps : List Migration) (w : World) :
    Except StoreError Store :=
  match SQLiteQueryExecutor.getStorage w with
  | .error e => .error e
  | .ok s => if s.isReady steps then .ok s else .error .migrationFailed

/-- Modelled from the spec: `getDraft(key)` on the store at the static path, once it is
`Ready`. `steps` are the migration steps compiled into the engine. -/
def SQLiteQueryExecutor.getDraft (_self : SQLiteQueryExecutor) (steps : List Migration)
    (key : String) (w : World) : Except StoreError String :=
  match SQLiteQueryExecutor.readyStorage steps w with
  | .error e => .error e
  | .ok s => .ok (s.getDraft key)

/-- Modelled from the spec: `updateDraft(key, text)` on the store at the static path, once
it is `Ready`; the record is persisted synchronously. A refused call writes nothing. -/
def SQLiteQueryExecutor.updateDraft (_self : SQLiteQueryExecutor) (steps : List Migration)
    (key text : String) (w : World) : Except StoreError Unit × World :=
  match SQLiteQueryExecutor.readyStorage steps w with
  | .error e => (.error e, w)
  | .ok s => (.ok (), w.putStorage (s.updateDraft key text))

/-- Modelled from the spec: `getAllDrafts()` "returns every record currently stored", once
the store at the static path is `Ready`. -/
def SQLiteQueryExecutor.getAllDrafts (_self : SQLiteQueryExecutor) (steps : List Migration)
    (w : World) : Except StoreError (List Draft) :=
  match SQLiteQueryExecutor.readyStorage steps w with
  | .error e => .error e
  | .ok s => .ok s.drafts

/-! ## Concrete inputs used to exercise the theorems -/

/-- A runtime whose global object already has one property. -/
def exampleRuntime : Runtime :=
  { global := fun n => if n = "console" then .string "native console" else .undefined }

/-- A world with one live runtime at address `4096`, no path set yet, and an empty store
(schema version 0) at `/data/comm.sqlite`. -/
def exampleWorld : World :=
  { runtimes := fun a => if a = 4096 then some exampleRuntime else none
    sqliteFilePath := ""
    files := fun p => if p = "/data/comm.sqlite" then some { version := 0, drafts := [] }
      else none }

/-- A call invoker holder. -/
def exampleHolder : CallInvokerHolder := { getCallInvoker := { id := 7 } }

/-- A configuration mapping with the required entry. -/
def exampleConfig : HashMap :=
  { entries := [("locale", { str := "en" }), ("sqliteFilePath", { str := "/data/comm.sqlite" })] }

/-- A configuration mapping without the `sqliteFilePath` entry. -/
def exampleConfigNoPath : HashMap :=
  { entries := [("locale", { str := "en" })] }

/-- The migration steps used in the examples: the first creates the empty draft table,
the second keeps every record. The target version is 2. -/
def exampleSteps : List Migration := [fun _ => some [], fun ds => some ds]

/-- A world whose static path is `/tmp/test.db`, where a migrated store (version 2) holds
one draft. -/
def draftsWorld : World :=
  { runtimes := fun _ => none
    sqliteFilePath := "/tmp/test.db"
    files := fun p =>
      if p = "/tmp/test.db" then
        some { version := 2, drafts := [{ key := "thread-1", text := "hello" }] }
      else none }

/-- A world whose static path is `/tmp/test.db`, where the store has never been migrated
(version 0, no table content). -/
def freshWorld : World :=
  { runtimes := fun _ => none
    sqliteFilePath := "/tmp/test.db"
    files := fun p =>
      if p = "/tmp/test.db" then some { version := 0, drafts := [] } else none }

/-- Migration steps the second of which fails. -/
def failingSteps : List Migration := [fun _ => some [], fun _ => none]

theorem assignSqliteFilePath_some (params : HashMap) (w : World) (t : List (Step × World))
    (p : JObject) (h : params.get "sqliteFilePath" = some p) :
    assignSqliteFilePath params w t =
      { outcome := .returned, world := { w with sqliteFilePath := p.toString },
        trace := t ++ [(.pathAssigned p.toString, { w with sqliteFilePath := p.toString })] } := by
  simp [assignSqliteFilePath, h]

theorem assignSqliteFilePath_none (params : HashMap) (w : World) (t : List (Step × World))
    (h : params.get "sqliteFilePath" = none) :
    assignSqliteFilePath params w t = { outcome := .nullReference, world := w, trace := t } := by
  simp [assignSqliteFilePath, h]

theorem initHybrid_null (holder : CallInvokerHolder) (params : HashMap) (w : World) :
    initHybrid 0 holder params w =
      assignSqliteFilePath params w
        [(.moduleConstructed { jsInvoker := holder.getCallInvoker }, w)] := by
  simp [initHybrid]

theorem initHybrid_live (jsContext : Int) (holder : CallInvokerHolder) (params : HashMap)
    (w : World) (r : Runtime) (hrt : jsContext ≠ 0) (hlive : w.runtimes jsContext = some r) :
    initHybrid jsContext holder params w =
      assignSqliteFilePath params
        (w.storeRuntime jsContext (r.setProperty "CommCoreModule"
          (.hostObject { jsInvoker := holder.getCallInvoker })))
        [(.moduleConstructed { jsInvoker := holder.getCallInvoker }, w),
         (.globalInstalled jsContext "CommCoreModule",
          w.storeRuntime jsContext (r.setProperty "CommCoreModule"
            (.hostObject { jsInvoker := holder.getCallInvoker })))] := by
  simp [initHybrid, hrt, hlive]

theorem initHybrid_dangling (jsContext : Int) (holder : CallInvokerHolder) (params : HashMap)
    (w : World) (hrt : jsContext ≠ 0) (hdead : w.runtimes jsContext = none) :
    initHybrid jsContext holder params w =
      { outcome := .invalidRuntime, world := w,
        trace := [(.moduleConstructed { jsInvoker := holder.getCallInvoker }, w)] } := by
  simp [initHybrid, hrt, hdead]

theorem exampleConfig_get :
    exampleConfig.get "sqliteFilePath" = some { str := "/data/comm.sqlite" } := by
  decide

theorem exampleConfigNoPath_get : exampleConfigNoPath.get "sqliteFilePath" = none := by
  decide

theorem exampleWorld_live : exampleWorld.runtimes 4096 = some exampleRuntime := by
  simp [exampleWorld]

/-- A live or null handle keeps `initHybrid` away from the invalid-pointer outcome: with a
path entry present the call returns and the static holds the entry's string form. -/
theorem initHybrid_returns (jsContext : Int) (holder : CallInvokerHolder) (params : HashMap)
    (w : World) (p : JObject) (hcfg : params.get "sqliteFilePath" = some p)
    (hrt : jsContext = 0 ∨ (w.runtimes jsContext).isSome = true) :
    (initHybrid jsContext holder params w).outcome = .returned ∧
    (initHybrid jsContext holder params w).world.sqliteFilePath = p.toString ∧
    (initHybrid jsContext holder params w).world.files = w.files ∧
    ∀ a, ((initHybrid jsContext holder params w).world.runtimes a).isSome
      = (w.runtimes a).isSome := by
  by_cases h0 : jsContext = 0
  · subst h0
    rw [initHybrid_null, assignSqliteFilePath_some _ _ _ p hcfg]
    simp
  · have hsome : (w.runtimes jsContext).isSome = true := by
      rcases hrt with h | h
      · exact absurd h h0
      · exact h
    obtain ⟨r, hr⟩ := Option.isSome_iff_exists.mp hsome
    rw [initHybrid_live _ _ _ _ r h0 hr, assignSqliteFilePath_some _ _ _ p hcfg]
    refine ⟨rfl, rfl, rfl, ?_⟩
    intro a
    by_cases ha : a = jsContext
    · subst ha; simp [World.storeRuntime, hr]
    · simp [World.storeRuntime, ha]

/-! ## Lemmas on the store operations -/

theorem find_overwritten (ds : List Draft) (k v : String)
    (h : ds.any (fun d => d.key == k) = true) :
    (ds.map (fun d => if d.key = k then { d with text := v } else d)).find?
        (fun d => d.key == k) = some { key := k, text := v } := by
  induction ds with
  | nil => simp at h
  | cons d rest ih =>
    by_cases hd : d.key = k
    · simp [hd]
    · have hrest : rest.any (fun d => d.key == k) = true := by
        simpa [hd] using h
      simp [hd, ih hrest]

theorem find_appended (ds : List Draft) (k v : String)
    (h : ds.any (fun d => d.key == k) = false) :
    (ds ++ [({ key := k, text := v } : Draft)]).find? (fun d => d.key == k)
      = some { key := k, text := v } := by
  induction ds with
  | nil => simp
  | cons d rest ih =>
    have hd : ¬ d.key = k := by
      intro hk
      simp [hk] at h
    have hrest : rest.any (fun d => d.key == k) = false := by
      simpa [hd] using h
    simp [hd, ih hrest]

theorem Store.getDraft_updateDraft (s : Store) (k v : String) :
    (s.updateDraft k v).getDraft k = v := by
  unfold Store.updateDraft Store.getDraft
  by_cases h : s.drafts.any (fun d => d.key == k) = true
  · simp only [h, if_true]
    rw [find_overwritten _ _ _ h]
  · have hf : s.drafts.any (fun d => d.key == k) = false := by
      simpa using h
    simp only [hf]
    rw [if_neg (by simp), find_appended _ _ _ hf]

theorem Store.getDraft_absent (s : Store) (k : String) (h : ∀ d ∈ s.drafts, d.key ≠ k) :
    s.getDraft k = "" := by
  unfold Store.getDraft
  have hnone : s.drafts.find? (fun d => d.key == k) = none := by
    simp [List.find?_eq_none]
    exact h
  rw [hnone]

theorem Store.keys_updateDraft (s : Store) (k v : String) :
    (s.updateDraft k v).drafts.map Draft.key =
      if s.drafts.any (fun d => d.key == k) then s.drafts.map Draft.key
      else s.drafts.map Draft.key ++ [k] := by
  unfold Store.updateDraft
  by_cases h : s.drafts.any (fun d => d.key == k) = true
  · simp only [h, if_true, List.map_map]
    apply List.map_congr_left
    intro d _
    by_cases hd : d.key = k <;> simp [hd]
  · simp [h]

theorem Store.uniqueKeys_updateDraft (s : Store) (k v : String) (h : s.UniqueKeys) :
    (s.updateDraft k v).UniqueKeys := by
  unfold Store.UniqueKeys at *
  rw [Store.keys_updateDraft]
  by_cases ha : s.drafts.any (fun d => d.key == k) = true
  · simpa [ha] using h
  · rw [if_neg ha]
    have hk : k ∉ s.drafts.map Draft.key := by
      intro hmem
      apply ha
      obtain ⟨d, hd, hdk⟩ := List.mem_map.mp hmem
      exact List.any_eq_true.mpr ⟨d, hd, by simp [hdk]⟩
    exact List.Nodup.append h (List.nodup_singleton k) (by simpa using hk)

theorem Store.key_mem_updateDraft (s : Store) (k v : String) :
    k ∈ (s.updateDraft k v).drafts.map Draft.key := by
  rw [Store.keys_updateDraft]
  by_cases ha : s.drafts.any (fun d => d.key == k) = true
  · rw [if_pos ha]
    obtain ⟨d, hd, hdk⟩ := List.any_eq_true.mp ha
    exact List.mem_map.mpr ⟨d, hd, by simpa using hdk⟩
  · rw [if_neg ha]
    simp

theorem filter_key_length (ds : List Draft) (k : String) :
    (ds.filter (fun d => d.key == k)).length = (ds.map Draft.key).count k := by
  induction ds with
  | nil => simp
  | cons d rest ih =>
    by_cases hd : d.key = k
    · simp [List.filter_cons, hd, ih]
    · simp [List.filter_cons, List.count_cons, hd, ih]

theorem Store.one_record_after_updateDraft (s : Store) (k v : String) (h : s.UniqueKeys) :
    ((s.updateDraft k v).drafts.filter (fun d => d.key == k)).length = 1 := by
  rw [filter_key_length]
  exact List.count_eq_one_of_mem (Store.uniqueKeys_updateDraft s k v h)
    (Store.key_mem_updateDraft s k v)

theorem applyMigrations_nil (s : Store) : applyMigrations [] s = (s, true) := rfl

theorem Store.isReady_at_target (steps : List Migration) (s : Store)
    (h : s.version = steps.length) : s.isReady steps = true := by
  simp [Store.isReady, h]

theorem Store.migrate_at_target (steps : List Migration) (s : Store)
    (h : s.version = steps.length) : s.migrate steps = (s, true) := by
  unfold Store.migrate
  rw [h, List.drop_length]
  rfl

theorem World.putStorage_same (w : World) (s : Store)
    (h : w.files w.sqliteFilePath = some s) : w.putStorage s = w := by
  cases w with
  | mk runtimes path files =>
    simp only [World.putStorage]
    congr
    funext p
    by_cases hp : p = path
    · subst hp; simpa using h.symm
    · simp [hp]

theorem getStorage_of_file (w : World) (s : Store) (h : w.files w.sqliteFilePath = some s) :
    SQLiteQueryExecutor.getStorage w = .ok s := by
  simp [SQLiteQueryExecutor.getStorage, h]

theorem getStorage_putStorage (w : World) (s : Store) :
    SQLiteQueryExecutor.getStorage (w.putStorage s) = .ok s := by
  simp [SQLiteQueryExecutor.getStorage, World.putStorage]

theorem readyStorage_of_storage (steps : List Migration) (w : World) (s : Store)
    (h : SQLiteQueryExecutor.getStorage w = .ok s) (hr : s.isReady steps = true) :
    SQLiteQueryExecutor.readyStorage steps w = .ok s := by
  simp [SQLiteQueryExecutor.readyStorage, h, hr]

/-- The gate: a store that can be opened but is not `Ready` is refused. -/
theorem readyStorage_refused (steps : List Migration) (w : World) (s : Store)
    (h : SQLiteQueryExecutor.getStorage w = .ok s) (hr : s.isReady steps = false) :
    SQLiteQueryExecutor.readyStorage steps w = .error .migrationFailed := by
  simp [SQLiteQueryExecutor.readyStorage, h, hr]

/-- Every entity operation is refused, and nothing is written, while the store at the
static path is not `Ready`. -/
theorem entity_operations_refused (e : SQLiteQueryExecutor) (steps : List Migration)
    (w : World) (s : Store) (k v : String)
    (h : SQLiteQueryExecutor.getStorage w = .ok s) (hr : s.isReady steps = false) :
    e.getDraft steps k w = .error .migrationFailed ∧
    e.updateDraft steps k v w = (.error .migrationFailed, w) ∧
    e.getAllDrafts steps w = .error .migrationFailed := by
  simp [SQLiteQueryExecutor.getDraft, SQLiteQueryExecutor.updateDraft,
    SQLiteQueryExecutor.getAllDrafts, readyStorage_refused steps w s h hr]

theorem updateDraft_of_storage (e : SQLiteQueryExecutor) (steps : List Migration)
    (w : World) (s : Store) (k v : String)
    (h : SQLiteQueryExecutor.getStorage w = .ok s) (hr : s.isReady steps = true) :
    e.updateDraft steps k v w = (.ok (), w.putStorage (s.updateDraft k v)) := by
  simp [SQLiteQueryExecutor.updateDraft, readyStorage_of_storage steps w s h hr]

theorem getDraft_of_storage (e : SQLiteQueryExecutor) (steps : List Migration)
    (w : World) (s : Store) (k : String)
    (h : SQLiteQueryExecutor.getStorage w = .ok s) (hr : s.isReady steps = true) :
    e.getDraft steps k w = .ok (s.getDraft k) := by
  simp [SQLiteQueryExecutor.getDraft, readyStorage_of_storage steps w s h hr]

theorem getAllDrafts_of_storage (e : SQLiteQueryExecutor) (steps : List Migration)
    (w : World) (s : Store)
    (h : SQLiteQueryExecutor.getStorage w = .ok s) (hr : s.isReady steps = true) :
    e.getAllDrafts steps w = .ok s.drafts := by
  simp [SQLiteQueryExecutor.getAllDrafts, readyStorage_of_storage steps w s h hr]

theorem Store.isReady_updateDraft (steps : List Migration) (s : Store) (k v : String) :
    (s.updateDraft k v).isReady steps = s.isReady steps := by
  unfold Store.updateDraft Store.isReady
  split <;> rfl

theorem applyMigrations_version (ms : List Migration) (s s1 : Store)
    (h : applyMigrations ms s = (s1, true)) : s1.version = s.version + ms.length := by
  induction ms generalizing s with
  | nil =>
    simp [applyMigrations] at h
    simp [h]
  | cons m rest ih =>
    unfold applyMigrations at h
    cases hm : m s.drafts with
    | none => simp [hm] at h
    | some ds =>
      simp only [hm] at h
      have := ih _ h
      simp at this
      simp [this]
      omega

theorem Store.isReady_migrate (steps : List Migration) (s s1 : Store)
    (h : s.migrate steps = (s1, true)) : s1.isReady steps = true := by
  unfold Store.migrate at h
  have hv := applyMigrations_version _ s s1 h
  simp [Store.isReady, hv]
  omega

/-- A successful construction leaves the store at the static path openable and `Ready`. -/
theorem create_ready (steps : List Migration) (w : World) (e : SQLiteQueryExecutor)
    (h : (SQLiteQueryExecutor.create steps w).1 = .ok e) :
    ∃ s, SQLiteQueryExecutor.getStorage (SQLiteQueryExecutor.create steps w).2 = .ok s ∧
      s.isReady steps = true := by
  unfold SQLiteQueryExecutor.create SQLiteQueryExecutor.migrate at *
  cases hs : SQLiteQueryExecutor.getStorage w with
  | error err => simp [hs] at h
  | ok s =>
    cases hm : s.migrate steps with
    | mk s1 okay =>
      cases okay with
      | false => simp [hs, hm] at h
      | true =>
        simp only [hs, hm]
        exact ⟨s1, getStorage_putStorage w s1, Store.isReady_migrate steps s s1 hm⟩

theorem draftsWorld_file :
    draftsWorld.files draftsWorld.sqliteFilePath
      = some { version := 2, drafts := [{ key := "thread-1", text := "hello" }] } := by
  simp [draftsWorld]

/-- A construction whose second migration step fails reports `MigrationFailed`, leaves the
store at version 1, and every entity operation is refused afterwards. -/
theorem failed_migration_blocks_operations :
    (SQLiteQueryExecutor.create failingSteps freshWorld).1 = .error .migrationFailed ∧
    SQLiteQueryExecutor.getStorage (SQLiteQueryExecutor.create failingSteps freshWorld).2
      = .ok { version := 1, drafts := [] } ∧
    SQLiteQueryExecutor.getDraft {} failingSteps "thread-1"
      (SQLiteQueryExecutor.create failingSteps freshWorld).2 = .error .migrationFailed ∧
    (SQLiteQueryExecutor.updateDraft {} failingSteps "thread-1" "hello"
      (SQLiteQueryExecutor.create failingSteps freshWorld).2).1
      = .error .migrationFailed ∧
    SQLiteQueryExecutor.getAllDrafts {} failingSteps
      (SQLiteQueryExecutor.create failingSteps freshWorld).2 = .error .migrationFailed := by
  exact ⟨rfl, rfl, rfl, rfl, rfl⟩

/-! ## The installer: claims C1, C2, C3 -/

/-- C1. For a non-null handle of a live runtime, any call invoker and a configuration
mapping with a `sqliteFilePath` entry, `initHybrid` returns, and afterwards the runtime's
global object has the property `CommCoreModule` whose value is the host object wrapping
the module that the call constructed from that invoker. -/
theorem initHybrid_installs_CommCoreModule (jsContext : Int) (holder : CallInvokerHolder)
    (params : HashMap) (w : World) (r : Runtime) (p : JObject)
    (hrt : jsContext ≠ 0) (hlive : w.runtimes jsContext = some r)
    (hcfg : params.get "sqliteFilePath" = some p) :
    (initHybrid jsContext holder params w).outcome = .returned ∧
    ∃ m r', (Step.moduleConstructed m) ∈
        (initHybrid jsContext holder params w).trace.map Prod.fst ∧
      m.jsInvoker = holder.getCallInvoker ∧
      (initHybrid jsContext holder params w).world.runtimes jsContext = some r' ∧
      r'.global "CommCoreModule" = .hostObject m := by
  rw [initHybrid_live _ _ _ _ r hrt hlive, assignSqliteFilePath_some _ _ _ p hcfg]
  refine ⟨rfl, { jsInvoker := holder.getCallInvoker },
    r.setProperty "CommCoreModule" (.hostObject { jsInvoker := holder.getCallInvoker }),
    ?_, rfl, ?_, ?_⟩
  · simp
  · simp [World.storeRuntime]
  · simp [Runtime.setProperty]

/-- Witness for C1: the runtime at address `4096` of `exampleWorld`. -/
theorem initHybrid_installs_CommCoreModule_witness :
    (initHybrid 4096 exampleHolder exampleConfig exampleWorld).outcome = .returned ∧
    ∃ m r', (Step.moduleConstructed m) ∈
        (initHybrid 4096 exampleHolder exampleConfig exampleWorld).trace.map Prod.fst ∧
      m.jsInvoker = { id := 7 } ∧
      (initHybrid 4096 exampleHolder exampleConfig exampleWorld).world.runtimes 4096
        = some r' ∧
      r'.global "CommCoreModule" = .hostObject m :=
  initHybrid_installs_CommCoreModule 4096 exampleHolder exampleConfig exampleWorld
    exampleRuntime { str := "/data/comm.sqlite" } (by decide) exampleWorld_live
    exampleConfig_get

/-- C2. When `sqliteFilePath` maps to a value `p`, `initHybrid` returns for every null or
live runtime handle and every call invoker, and whenever it returns the static
`SQLiteQueryExecutor::sqliteFilePath` equals the string form of `p`. -/
theorem initHybrid_sets_sqliteFilePath (jsContext : Int) (holder : CallInvokerHolder)
    (params : HashMap) (w : World) (p : JObject)
    (hcfg : params.get "sqliteFilePath" = some p) :
    (jsContext = 0 ∨ (w.runtimes jsContext).isSome = true →
      (initHybrid jsContext holder params w).outcome = .returned) ∧
    ((initHybrid jsContext holder params w).outcome = .returned →
      (initHybrid jsContext holder params w).world.sqliteFilePath = p.toString) := by
  refine ⟨fun h => (initHybrid_returns jsContext holder params w p hcfg h).1, ?_⟩
  intro hret
  by_cases h0 : jsContext = 0
  · exact (initHybrid_returns jsContext holder params w p hcfg (Or.inl h0)).2.1
  · cases hr : w.runtimes jsContext with
    | none =>
      rw [initHybrid_dangling _ _ _ _ h0 hr] at hret
      simp at hret
    | some r =>
      exact (initHybrid_returns jsContext holder params w p hcfg
        (Or.inr (by simp [hr]))).2.1

/-- Witness for C2: the example configuration, with the null handle and with a live one. -/
theorem initHybrid_sets_sqliteFilePath_witness :
    (initHybrid 0 exampleHolder exampleConfig exampleWorld).outcome = .returned ∧
    (initHybrid 0 exampleHolder exampleConfig exampleWorld).world.sqliteFilePath
      = "/data/comm.sqlite" ∧
    (initHybrid 4096 exampleHolder exampleConfig exampleWorld).world.sqliteFilePath
      = "/data/comm.sqlite" :=
  ⟨(initHybrid_sets_sqliteFilePath 0 exampleHolder exampleConfig exampleWorld
      { str := "/data/comm.sqlite" } exampleConfig_get).1 (Or.inl rfl),
   (initHybrid_sets_sqliteFilePath 0 exampleHolder exampleConfig exampleWorld
      { str := "/data/comm.sqlite" } exampleConfig_get).2
      ((initHybrid_sets_sqliteFilePath 0 exampleHolder exampleConfig exampleWorld
      { str := "/data/comm.sqlite" } exampleConfig_get).1 (Or.inl rfl)),
   (initHybrid_sets_sqliteFilePath 4096 exampleHolder exampleConfig exampleWorld
      { str := "/data/comm.sqlite" } exampleConfig_get).2
      ((initHybrid_sets_sqliteFilePath 4096 exampleHolder exampleConfig exampleWorld
      { str := "/data/comm.sqlite" } exampleConfig_get).1
        (Or.inr (by simp [exampleWorld_live])))⟩

/-- C8. For a non-null handle of a live runtime and a configuration without a
`sqliteFilePath` entry, `initHybrid` does not return: it fails on the null lookup result
at the path assignment. The static path keeps its previous value, yet the global
`CommCoreModule` is already installed in the runtime, the two steps executed being the
module construction and the installation. -/
theorem initHybrid_missing_path_after_install (jsContext : Int)
    (holder : CallInvokerHolder) (params : HashMap) (w : World) (r : Runtime)
    (hrt : jsContext ≠ 0) (hlive : w.runtimes jsContext = some r)
    (hcfg : params.get "sqliteFilePath" = none) :
    (initHybrid jsContext holder params w).outcome = .nullReference ∧
    (initHybrid jsContext holder params w).world.sqliteFilePath = w.sqliteFilePath ∧
    (∃ r', (initHybrid jsContext holder params w).world.runtimes jsContext = some r' ∧
      r'.global "CommCoreModule"
        = .hostObject { jsInvoker := holder.getCallInvoker }) ∧
    (initHybrid jsContext holder params w).trace.map Prod.fst =
      [.moduleConstructed { jsInvoker := holder.getCallInvoker },
       .globalInstalled jsContext "CommCoreModule"] := by
  rw [initHybrid_live _ _ _ _ r hrt hlive, assignSqliteFilePath_none _ _ _ hcfg]
  refine ⟨rfl, rfl, ⟨r.setProperty "CommCoreModule"
    (.hostObject { jsInvoker := holder.getCallInvoker }), ?_, ?_⟩, rfl⟩
  · simp [World.storeRuntime]
  · simp [Runtime.setProperty]

/-- Witness for C8: the configuration without a path entry, on `exampleWorld`. -/
theorem initHybrid_missing_path_after_install_witness :
    (initHybrid 4096 exampleHolder exampleConfigNoPath exampleWorld).outcome
      = .nullReference ∧
    (initHybrid 4096 exampleHolder exampleConfigNoPath exampleWorld).world.sqliteFilePath
      = "" ∧
    (∃ r', (initHybrid 4096 exampleHolder exampleConfigNoPath exampleWorld).world.runtimes
        4096 = some r' ∧
      r'.global "CommCoreModule" = .hostObject { jsInvoker := { id := 7 } }) ∧
    (initHybrid 4096 exampleHolder exampleConfigNoPath exampleWorld).trace.map Prod.fst =
      [.moduleConstructed { jsInvoker := { id := 7 } },
       .globalInstalled 4096 "CommCoreModule"] :=
  initHybrid_missing_path_after_install 4096 exampleHolder exampleConfigNoPath exampleWorld
    exampleRuntime (by decide) exampleWorld_live exampleConfigNoPath_get

/-- C9. For the null handle (`jsContext = 0`) and a configuration with a `sqliteFilePath`
entry, `initHybrid` returns normally, leaves every runtime as it was and executes no
installation step, yet it constructs the native module and sets the static path to the
configured one. -/
theorem initHybrid_null_runtime (holder : CallInvokerHolder) (params : HashMap)
    (w : World) (p : JObject) (hcfg : params.get "sqliteFilePath" = some p) :
    (initHybrid 0 holder params w).outcome = .returned ∧
    (initHybrid 0 holder params w).world.runtimes = w.runtimes ∧
    (initHybrid 0 holder params w).world.sqliteFilePath = p.toString ∧
    (initHybrid 0 holder params w).trace.map Prod.fst =
      [.moduleConstructed { jsInvoker := holder.getCallInvoker },
       .pathAssigned p.toString] := by
  rw [initHybrid_null, assignSqliteFilePath_some _ _ _ p hcfg]
  exact ⟨rfl, rfl, rfl, rfl⟩

/-- Witness for C9: the null handle with the example configuration. -/
theorem initHybrid_null_runtime_witness :
    (initHybrid 0 exampleHolder exampleConfig exampleWorld).outcome = .returned ∧
    (initHybrid 0 exampleHolder exampleConfig exampleWorld).world.runtimes
      = exampleWorld.runtimes ∧
    (initHybrid 0 exampleHolder exampleConfig exampleWorld).world.sqliteFilePath
      = "/data/comm.sqlite" ∧
    (initHybrid 0 exampleHolder exampleConfig exampleWorld).trace.map Prod.fst =
      [.moduleConstructed { jsInvoker := { id := 7 } },
       .pathAssigned "/data/comm.sqlite"] :=
  initHybrid_null_runtime exampleHolder exampleConfig exampleWorld
    { str := "/data/comm.sqlite" } exampleConfig_get

/-- C10. Whatever the arguments and however the call ends, `initHybrid` changes at most the
global property `CommCoreModule` of the runtime it was handed and the static path: every
other global property of every runtime keeps its value, every other runtime is untouched,
the set of live runtimes is the same, and the store files are the same. -/
theorem initHybrid_frame (jsContext : Int) (holder : CallInvokerHolder) (params : HashMap)
    (w : World) :
    (∀ a n, n ≠ "CommCoreModule" →
      ((initHybrid jsContext holder params w).world.runtimes a).map (fun r => r.global n)
        = (w.runtimes a).map (fun r => r.global n)) ∧
    (∀ a, a ≠ jsContext →
      (initHybrid jsContext holder params w).world.runtimes a = w.runtimes a) ∧
    (∀ a, ((initHybrid jsContext holder params w).world.runtimes a).isSome
      = (w.runtimes a).isSome) ∧
    (initHybrid jsContext holder params w).world.files = w.files := by
  have key : ∀ (w1 : World) (t : List (Step × World)),
      (assignSqliteFilePath params w1 t).world.runtimes = w1.runtimes ∧
      (assignSqliteFilePath params w1 t).world.files = w1.files := by
    intro w1 t
    cases hg : params.get "sqliteFilePath" with
    | none => rw [assignSqliteFilePath_none _ _ _ hg]; exact ⟨rfl, rfl⟩
    | some p => rw [assignSqliteFilePath_some _ _ _ p hg]; exact ⟨rfl, rfl⟩
  by_cases h0 : jsContext = 0
  · subst h0
    rw [initHybrid_null, (key _ _).1, (key _ _).2]
    simp
  · cases hr : w.runtimes jsContext with
    | none =>
      rw [initHybrid_dangling _ _ _ _ h0 hr]
      simp
    | some r =>
      rw [initHybrid_live _ _ _ _ r h0 hr, (key _ _).1, (key _ _).2]
      refine ⟨?_, ?_, ?_, rfl⟩
      · intro a n hn
        by_cases ha : a = jsContext
        · subst ha; simp [World.storeRuntime, Runtime.setProperty, hr, hn]
        · simp [World.storeRuntime, ha]
      · intro a ha
        simp [World.storeRuntime, ha]
      · intro a
        by_cases ha : a = jsContext
        · subst ha; simp [World.storeRuntime, hr]
        · simp [World.storeRuntime, ha]

/-! ## The executor: claims C4, C5, C6 -/

/-- C4. With a store at the static path that can be opened and is `Ready` (no migration
pending, as after a successful construction): `getDraft(k)` for a key with no stored
draft succeeds with the empty result, and for every key `k` and text `v`,
`updateDraft(k, v)` succeeds, leaves the store `Ready`, and a following `getDraft(k)`
yields `v`. -/
theorem getDraft_absent_then_updated (e : SQLiteQueryExecutor) (steps : List Migration)
    (w : World) (s : Store) (k v : String)
    (hopen : w.files w.sqliteFilePath = some s) (hready : s.isReady steps = true) :
    e.getAllDrafts steps w = .ok s.drafts ∧
    ((∀ d ∈ s.drafts, d.key ≠ k) → e.getDraft steps k w = .ok "") ∧
    (e.updateDraft steps k v w).1 = .ok () ∧
    e.getDraft steps k (e.updateDraft steps k v w).2 = .ok v ∧
    SQLiteQueryExecutor.readyStorage steps (e.updateDraft steps k v w).2
      = .ok (s.updateDraft k v) := by
  have hs := getStorage_of_file w s hopen
  have hr2 : (s.updateDraft k v).isReady steps = true := by
    rw [Store.isReady_updateDraft]; exact hready
  refine ⟨getAllDrafts_of_storage e steps w s hs hready, ?_, ?_, ?_, ?_⟩
  · intro habs
    rw [getDraft_of_storage e steps w s k hs hready, Store.getDraft_absent s k habs]
  · rw [updateDraft_of_storage e steps w s k v hs hready]
  · rw [updateDraft_of_storage e steps w s k v hs hready,
      getDraft_of_storage e steps _ _ k (getStorage_putStorage w _) hr2,
      Store.getDraft_updateDraft]
  · rw [updateDraft_of_storage e steps w s k v hs hready]
    exact readyStorage_of_storage steps _ _ (getStorage_putStorage w _) hr2

/-- Witness for C4: an executor is constructed on the never-migrated `freshWorld`; in the
world it leaves the key `thread-2` is absent, and `thread-1` is written and read back. -/
theorem getDraft_absent_then_updated_witness :
    (SQLiteQueryExecutor.create exampleSteps freshWorld).1 = .ok {} ∧
    SQLiteQueryExecutor.getDraft {} exampleSteps "thread-2"
      (SQLiteQueryExecutor.create exampleSteps freshWorld).2 = .ok "" ∧
    SQLiteQueryExecutor.getDraft {} exampleSteps "thread-1"
      (SQLiteQueryExecutor.updateDraft {} exampleSteps "thread-1" "hello"
        (SQLiteQueryExecutor.create exampleSteps freshWorld).2).2 = .ok "hello" :=
  ⟨rfl,
   ((getDraft_absent_then_updated {} exampleSteps
      (SQLiteQueryExecutor.create exampleSteps freshWorld).2
      { version := 2, drafts := [] } "thread-2" "hi" (by decide) (by decide)).2.1)
      (by decide),
   (getDraft_absent_then_updated {} exampleSteps
      (SQLiteQueryExecutor.create exampleSteps freshWorld).2
      { version := 2, drafts := [] } "thread-1" "hello" (by decide) (by decide)).2.2.2.1⟩

/-- C5. With a store at the static path that can be opened, is `Ready`, and holds at most
one record per key: `updateDraft(k, v1)` then `updateDraft(k, v2)` both succeed,
`getDraft(k)` then yields `v2`, and `getAllDrafts()` then succeeds with a list that has
exactly one record whose key is `k` and no key twice. -/
theorem updateDraft_last_write_wins (e : SQLiteQueryExecutor) (steps : List Migration)
    (w : World) (s : Store) (k v1 v2 : String)
    (hopen : w.files w.sqliteFilePath = some s) (hready : s.isReady steps = true)
    (huniq : s.UniqueKeys) :
    (e.updateDraft steps k v1 w).1 = .ok () ∧
    (e.updateDraft steps k v2 (e.updateDraft steps k v1 w).2).1 = .ok () ∧
    e.getDraft steps k (e.updateDraft steps k v2 (e.updateDraft steps k v1 w).2).2
      = .ok v2 ∧
    ∃ all, e.getAllDrafts steps
        (e.updateDraft steps k v2 (e.updateDraft steps k v1 w).2).2 = .ok all ∧
      (all.filter (fun d => d.key == k)).length = 1 ∧
      (all.map Draft.key).Nodup := by
  have hs := getStorage_of_file w s hopen
  have hr1 : (s.updateDraft k v1).isReady steps = true := by
    rw [Store.isReady_updateDraft]; exact hready
  have hr2 : ((s.updateDraft k v1).updateDraft k v2).isReady steps = true := by
    rw [Store.isReady_updateDraft]; exact hr1
  have h1 := updateDraft_of_storage e steps w s k v1 hs hready
  have h2 := updateDraft_of_storage e steps (w.putStorage (s.updateDraft k v1))
    (s.updateDraft k v1) k v2 (getStorage_putStorage w _) hr1
  rw [h1, h2]
  refine ⟨rfl, rfl, ?_, ((s.updateDraft k v1).updateDraft k v2).drafts, ?_, ?_, ?_⟩
  · rw [getDraft_of_storage e steps _ _ k (getStorage_putStorage _ _) hr2,
      Store.getDraft_updateDraft]
  · rw [getAllDrafts_of_storage e steps _ _ (getStorage_putStorage _ _) hr2]
  · exact Store.one_record_after_updateDraft _ k v2 (Store.uniqueKeys_updateDraft s k v1 huniq)
  · exact Store.uniqueKeys_updateDraft _ k v2 (Store.uniqueKeys_updateDraft s k v1 huniq)

/-- Witness for C5: `thread-1` written twice in `draftsWorld`, whose store is at the target
version of `exampleSteps`. -/
theorem updateDraft_last_write_wins_witness :
    SQLiteQueryExecutor.getDraft {} exampleSteps "thread-1"
      (SQLiteQueryExecutor.updateDraft {} exampleSteps "thread-1" "hello world"
        (SQLiteQueryExecutor.updateDraft {} exampleSteps "thread-1" "hello again"
          draftsWorld).2).2
      = .ok "hello world" ∧
    ∃ all, SQLiteQueryExecutor.getAllDrafts {} exampleSteps
      (SQLiteQueryExecutor.updateDraft {} exampleSteps "thread-1" "hello world"
        (SQLiteQueryExecutor.updateDraft {} exampleSteps "thread-1" "hello again"
          draftsWorld).2).2 = .ok all ∧
      (all.filter (fun d => d.key == "thread-1")).length = 1 ∧
      (all.map Draft.key).Nodup :=
  (updateDraft_last_write_wins {} exampleSteps draftsWorld _ "thread-1" "hello again"
    "hello world" draftsWorld_file (by decide) (by decide)).2.2

/-- C6. Constructing an executor against a store that can be opened at the static path and
is already at the target schema version succeeds and changes nothing: the world, hence
the store with its version and records, is the same, and `getAllDrafts()` returns the
same records before and after. -/
theorem create_on_migrated_store (steps : List Migration) (e : SQLiteQueryExecutor)
    (w : World) (s : Store) (hopen : w.files w.sqliteFilePath = some s)
    (hver : s.version = steps.length) :
    (SQLiteQueryExecutor.create steps w).1 = .ok {} ∧
    (SQLiteQueryExecutor.create steps w).2 = w ∧
    SQLiteQueryExecutor.getStorage (SQLiteQueryExecutor.create steps w).2 = .ok s ∧
    e.getAllDrafts steps w = .ok s.drafts ∧
    e.getAllDrafts steps (SQLiteQueryExecutor.create steps w).2
      = e.getAllDrafts steps w := by
  have hs := getStorage_of_file w s hopen
  have hc : SQLiteQueryExecutor.create steps w = (.ok {}, w) := by
    simp only [SQLiteQueryExecutor.create, SQLiteQueryExecutor.migrate, hs,
      Store.migrate_at_target steps s hver, World.putStorage_same w s hopen]
  rw [hc]
  exact ⟨rfl, rfl, hs,
    getAllDrafts_of_storage e steps w s hs (Store.isReady_at_target steps s hver), rfl⟩

/-- Witness for C6: `draftsWorld` is at version 2, the target of `exampleSteps`. -/
theorem create_on_migrated_store_witness :
    (SQLiteQueryExecutor.create exampleSteps draftsWorld).1 = .ok {} ∧
    SQLiteQueryExecutor.getAllDrafts {} exampleSteps
        (SQLiteQueryExecutor.create exampleSteps draftsWorld).2
      = .ok [{ key := "thread-1", text := "hello" }] :=
  ⟨(create_on_migrated_store exampleSteps {} draftsWorld _ draftsWorld_file rfl).1,
   ((create_on_migrated_store exampleSteps {} draftsWorld _ draftsWorld_file rfl).2.2.2.2).trans
     (create_on_migrated_store exampleSteps {} draftsWorld _ draftsWorld_file rfl).2.2.2.1⟩

end comm
